import Mathlib

/-!
Shallow embedding of the SAT study-plan generator
(`src/lib/types.ts` + `src/lib/planGenerator.ts`).

Numbers are modelled as exact rationals (`ℚ`) for JS `number` arithmetic,
`ℤ`/`ℕ` where the source only ever holds integers.  `Math.floor`, `Math.ceil`
and `Math.round` become `Int.floor`, `Int.ceil` and `jsRound` (floor of
`q + 1/2`, which is JS rounding for every input that occurs here).
`Date` values and the `calculateTimeline` stage are outside the embedding:
every claim fixes the resolved `effectiveWeeks` instead, so the pipeline
entry point takes `effectiveWeeks` directly and the `Timeline` record keeps
only that field.
-/

namespace SatPlan

/-- JS `Math.round`: round half toward positive infinity. -/
def jsRound (q : ℚ) : ℤ := ⌊q + 1 / 2⌋

/-- Floor of a nonnegative rational as a natural number
(`Math.floor` applied to week arithmetic, which never goes negative). -/
def floorToNat (q : ℚ) : ℕ := (⌊q⌋).toNat

/-- Ceiling of a nonnegative rational as a natural number (`Math.ceil`). -/
def ceilToNat (q : ℚ) : ℕ := (⌈q⌉).toNat

/-- JS `a || b` on numbers used as week boundaries: `0` is falsy. -/
def orIfZero (n fallback : ℕ) : ℕ := if n = 0 then fallback else n

/-- JS `String.prototype.includes`: substring containment test. -/
def jsIncludes (s pat : String) : Bool := decide (1 < (s.splitOn pat).length)

/-- `ScoreGap.difficulty` values from `types.ts`. -/
inductive Difficulty where
  | small | moderate | significant | large | very_large
deriving DecidableEq, Repr

/-- `ScoreGap` record from `types.ts`. -/
structure ScoreGap where
  totalGap : ℤ
  isAchievable : Bool
  difficulty : Difficulty
deriving DecidableEq, Repr

/-- `Timeline` record; the `Date` fields and day/week counts produced by
`calculateTimeline` are outside the embedding (claims fix `effectiveWeeks`),
so only `effectiveWeeks` is kept. -/
structure Timeline where
  effectiveWeeks : ℕ
deriving DecidableEq, Repr

/-- `Recommendation.type` values from `types.ts`. -/
inductive RecType where
  | increase_intensity | add_tutoring | extend_timeline | adjust_target
deriving DecidableEq, Repr

/-- `Recommendation.priority` values from `types.ts`. -/
inductive Priority where
  | high | medium | low
deriving DecidableEq, Repr

/-- The `details` payloads (`Record<string, unknown>`) actually constructed
by `assessFeasibility`, one variant per recommendation kind. -/
inductive RecDetails where
  | increaseIntensity (newIntensity : String) (projectedImprovement : ℚ)
  | addTutoring (currentSessions recommendedSessions : ℕ)
      (projectedWithMoreTutoring : ℚ)
  | extendTimeline (additionalWeeks : ℤ)
  | adjustTarget (achievableScore : ℤ)
deriving DecidableEq, Repr

/-- `Recommendation` record from `types.ts`. -/
structure Recommendation where
  type : RecType
  priority : Priority
  impact : ℚ
  message : String
  details : Option RecDetails
deriving DecidableEq, Repr

/-- `FeasibilityAssessment` record from `types.ts`; `confidence` is always
produced through `Math.round`, hence `ℤ`. -/
structure FeasibilityAssessment where
  isFeasible : Bool
  confidence : ℤ
  projectedImprovement : ℚ
  shortfall : Option ℚ
  recommendations : List Recommendation
deriving DecidableEq, Repr

/-- `PlanType` from `types.ts`. -/
inductive PlanType where
  | cram | short | standard | extended | long_term
deriving DecidableEq, Repr

/-- `Phase.contentDistribution` from `types.ts` (four integer percentages). -/
structure ContentDistribution where
  learning : ℕ
  practice : ℕ
  testing : ℕ
  review : ℕ
deriving DecidableEq, Repr

/-- `Phase` record from `types.ts`. -/
structure Phase where
  name : String
  startWeek : ℕ
  endWeek : ℕ
  focus : String
  objectives : List String
  weeklyHours : ℚ
  contentDistribution : ContentDistribution
deriving DecidableEq, Repr

/-- `Activity.type` values from `types.ts`. -/
inductive ActivityType where
  | diagnostic | lesson | practice | review | test | rest | tutoring
deriving DecidableEq, Repr

/-- `Activity` record from `types.ts` (duration in minutes, a `Math.round`
result, hence `ℤ`). -/
structure Activity where
  type : ActivityType
  name : String
  duration : ℤ
  description : String
deriving DecidableEq, Repr

/-- `TutoringSession` record from `types.ts`. -/
structure TutoringSession where
  sessionNumber : ℕ
  duration : ℕ
  focus : List String
  suggestedTopics : List String
deriving DecidableEq, Repr

/-- `WeeklyPlan` record from `types.ts`. -/
structure WeeklyPlan where
  weekNumber : ℕ
  phase : String
  focus : List String
  activities : List Activity
  tutoringSessions : List TutoringSession
  targetHours : ℚ
  targetProblems : ℤ
  totalHoursWithTutoring : ℚ
deriving DecidableEq, Repr

/-- Tutoring summary inside `StudyPlan` from `types.ts`. -/
structure TutoringInfo where
  sessionsPerWeek : ℕ
  totalSessions : ℕ
  hoursPerWeek : ℚ
  multiplierApplied : ℚ
deriving DecidableEq, Repr

/-- `StudyPlan` record from `types.ts`; the `Date` fields (`createdAt`,
`startDate`, `testDate`) are outside the embedding, and `totalWeeks` holds
the effective week count exactly as `generateStudyPlan` assembles it. -/
structure StudyPlan where
  totalWeeks : ℕ
  startingScore : ℤ
  targetScore : ℤ
  projectedScore : ℤ
  scoreGap : ScoreGap
  planType : PlanType
  phases : List Phase
  weeklyPlans : List WeeklyPlan
  feasibility : FeasibilityAssessment
  studyIntensity : String
  weeklyHoursRecommended : ℚ
  tutoring : TutoringInfo
deriving DecidableEq, Repr

/-- `WEEKLY_IMPROVEMENT_RATES` table (`planGenerator.ts`); a key outside the
table models the JS `undefined` lookup with `0`, which no claim exercises. -/
def WEEKLY_IMPROVEMENT_RATES : String → ℚ
  | "light" => 8
  | "moderate" => 15
  | "intensive" => 22
  | "very_intensive" => 30
  | _ => 0

/-- `MAX_IMPROVEMENTS` table (`planGenerator.ts`). -/
def MAX_IMPROVEMENTS : String → ℚ
  | "light" => 150
  | "moderate" => 250
  | "intensive" => 350
  | "very_intensive" => 450
  | _ => 0

/-- `WEEKLY_HOURS` table (`planGenerator.ts`). -/
def WEEKLY_HOURS : String → ℚ
  | "light" => 3
  | "moderate" => 6.5
  | "intensive" => 10.5
  | "very_intensive" => 16.5
  | _ => 0

/-- `TUTORING_MULTIPLIERS` table (`planGenerator.ts`), keyed 1–4. -/
def TUTORING_MULTIPLIERS : ℕ → ℚ
  | 1 => 1.20
  | 2 => 1.30
  | 3 => 1.35
  | 4 => 1.40
  | _ => 0

/-- `TUTORING_SESSION_DURATION` constant (minutes per session). -/
def TUTORING_SESSION_DURATION : ℕ := 60

/-- `calculateScoreGap` from `planGenerator.ts`. -/
def calculateScoreGap (currentScore targetScore : ℤ) : ScoreGap :=
  let totalGap := max 0 (targetScore - currentScore)
  { totalGap := totalGap
    isAchievable := decide (totalGap ≤ 500)
    difficulty :=
      if totalGap ≤ 100 then .small
      else if totalGap ≤ 150 then .moderate
      else if totalGap ≤ 250 then .significant
      else if totalGap ≤ 350 then .large
      else .very_large }

/-- `getRecommendedWeeks` from `planGenerator.ts`. -/
def getRecommendedWeeks (scoreGap : ℤ) : ℕ :=
  if scoreGap ≤ 50 then 4
  else if scoreGap ≤ 100 then 6
  else if scoreGap ≤ 150 then 8
  else if scoreGap ≤ 200 then 12
  else if scoreGap ≤ 300 then 16
  else if scoreGap ≤ 400 then 24
  else 36

/-- `selectPlanType` from `planGenerator.ts`. -/
def selectPlanType (weeks : ℕ) : PlanType :=
  if weeks ≤ 4 then .cram
  else if weeks ≤ 8 then .short
  else if weeks ≤ 16 then .standard
  else if weeks ≤ 32 then .extended
  else .long_term

/-- The `hoursDesc` lookup inside `assessFeasibility`; a missing key renders
as the string `"undefined"`, exactly as a JS template literal would. -/
def hoursDesc : String → String
  | "moderate" => "5-8 hours/week"
  | "intensive" => "9-12 hours/week"
  | "very_intensive" => "13-20 hours/week"
  | _ => "undefined"

/-- The `intensityLevels` array inside `assessFeasibility`. -/
def intensityLevels : List String :=
  ["light", "moderate", "intensive", "very_intensive"]

/-- JS `Array.prototype.indexOf` result (−1 when absent). -/
def jsIndexOf (l : List String) (s : String) : ℤ :=
  match l.indexOf? s with
  | some i => (i : ℤ)
  | none => -1

/-- `assessFeasibility` from `planGenerator.ts`.  The `for` loop over the
higher intensity tiers pushes one recommendation for the first qualifying
tier and then breaks, i.e. it acts on `find?` over the tiers above the
current index; the hard-coded `currentScore = 1000` placeholder of the
source is kept as-is. -/
def assessFeasibility (timeline : Timeline) (scoreGap : ScoreGap)
    (intensity : String) (tutoringSessionsPerWeek : ℕ) :
    FeasibilityAssessment :=
  let weeks : ℚ := timeline.effectiveWeeks
  let gap : ℚ := scoreGap.totalGap
  let baseWeeklyRate := WEEKLY_IMPROVEMENT_RATES intensity
  let baseMaxImprovement := MAX_IMPROVEMENTS intensity
  let tutoringMultiplier := TUTORING_MULTIPLIERS tutoringSessionsPerWeek
  let weeklyRate := baseWeeklyRate * tutoringMultiplier
  let maxImprovement := baseMaxImprovement * tutoringMultiplier
  let rawProjection := weeks * weeklyRate
  let projectedImprovement := min rawProjection maxImprovement
  if gap ≤ projectedImprovement then
    let buffer := projectedImprovement - gap
    let confidence : ℚ :=
      if 0 < gap then min 95 (60 + buffer / gap * 35) else 95
    { isFeasible := true
      confidence := jsRound confidence
      projectedImprovement := projectedImprovement
      shortfall := none
      recommendations := [] }
  else
    let shortfall := gap - projectedImprovement
    let confidence : ℚ := max 20 (60 - shortfall / 10)
    let currentIdx := jsIndexOf intensityLevels intensity
    let candidates := intensityLevels.drop (currentIdx + 1).toNat
    let increaseRecs : List Recommendation :=
      match candidates.find? (fun newIntensity =>
          decide (gap ≤ min
            (weeks * (WEEKLY_IMPROVEMENT_RATES newIntensity * tutoringMultiplier))
            (MAX_IMPROVEMENTS newIntensity * tutoringMultiplier))) with
      | some newIntensity =>
        let newProjection := min
          (weeks * (WEEKLY_IMPROVEMENT_RATES newIntensity * tutoringMultiplier))
          (MAX_IMPROVEMENTS newIntensity * tutoringMultiplier)
        [{ type := .increase_intensity
           priority := .high
           impact := newProjection - projectedImprovement
           message := "Increase async study time to " ++ hoursDesc newIntensity
           details := some (.increaseIntensity newIntensity newProjection) }]
      | none => []
    let addTutoringRecs : List Recommendation :=
      if tutoringSessionsPerWeek < 4 then
        let higherTutoring := min 4 (tutoringSessionsPerWeek + 1)
        let higherMultiplier := TUTORING_MULTIPLIERS higherTutoring
        let withMoreTutoring := min (weeks * baseWeeklyRate * higherMultiplier)
          (baseMaxImprovement * higherMultiplier)
        if gap ≤ withMoreTutoring then
          [{ type := .add_tutoring
             priority := .high
             impact := withMoreTutoring - projectedImprovement
             message := "Increase tutoring to " ++ toString higherTutoring ++
               "x per week"
             details := some (.addTutoring tutoringSessionsPerWeek
               higherTutoring withMoreTutoring) }]
        else []
      else []
    let additionalWeeksNeeded : ℤ := ⌈shortfall / weeklyRate⌉
    let extendRec : Recommendation :=
      { type := .extend_timeline
        priority := .medium
        impact := shortfall
        message := "Consider a test date " ++ toString additionalWeeksNeeded ++
          " weeks later"
        details := some (.extendTimeline additionalWeeksNeeded) }
    let currentScore : ℚ := 1000
    let achievableScore : ℤ :=
      jsRound ((projectedImprovement + currentScore) / 10) * 10
    let adjustRec : Recommendation :=
      { type := .adjust_target
        priority := .low
        impact := shortfall
        message := "Based on timeline, a target of " ++
          toString achievableScore ++ " is more achievable"
        details := some (.adjustTarget achievableScore) }
    { isFeasible := false
      confidence := jsRound confidence
      projectedImprovement := projectedImprovement
      shortfall := some shortfall
      recommendations := increaseRecs ++ addTutoringRecs ++
        [extendRec, adjustRec] }

/-- `generateCramPhases` from `planGenerator.ts`. -/
def generateCramPhases (weeks : ℕ) : List Phase :=
  if weeks ≤ 2 then
    [ { name := "Diagnostic + High-Impact Strategies"
        startWeek := 1
        endWeek := 1
        focus := "Identify weaknesses and learn key strategies"
        objectives :=
          [ "Complete full diagnostic test", "Learn top 5 math rules",
            "Learn top 5 R&W rules", "Master elimination technique"]
        weeklyHours := 15
        contentDistribution := ⟨40, 30, 20, 10⟩ }
    , { name := "Intensive Practice + Final Prep"
        startWeek := 2
        endWeek := weeks
        focus := "Targeted practice and test simulation"
        objectives :=
          [ "Complete 1 full practice test", "Focus on top 3 weak areas",
            "Pacing drills", "Light review before test day"]
        weeklyHours := 12
        contentDistribution := ⟨20, 40, 30, 10⟩ } ]
  else
    [ { name := "Assessment + Foundation"
        startWeek := 1
        endWeek := ceilToNat ((weeks : ℚ) / 2)
        focus := "Diagnostic and core content mastery"
        objectives :=
          [ "Complete diagnostic test", "Master foundational math concepts",
            "Master grammar rules", "Learn SAT strategies"]
        weeklyHours := 12
        contentDistribution := ⟨40, 30, 15, 15⟩ }
    , { name := "Polish + Peak"
        startWeek := ceilToNat ((weeks : ℚ) / 2) + 1
        endWeek := weeks
        focus := "Practice tests and final preparation"
        objectives :=
          [ "Complete 2 full practice tests", "Target weak areas",
            "Time management mastery", "Pre-test preparation"]
        weeklyHours := 10
        contentDistribution := ⟨15, 35, 40, 10⟩ } ]

/-- `generateShortPhases` from `planGenerator.ts`. -/
def generateShortPhases (weeks : ℕ) : List Phase :=
  let phase1End := floorToNat ((weeks : ℚ) * 0.3)
  let phase2End := floorToNat ((weeks : ℚ) * 0.6)
  let phase3End := floorToNat ((weeks : ℚ) * 0.85)
  [ { name := "Foundation"
      startWeek := 1
      endWeek := orIfZero phase1End 1
      focus := "Diagnosis and core content"
      objectives :=
        [ "Complete full diagnostic test", "Master algebra basics",
          "Master grammar fundamentals",
          "Build reading comprehension strategies"]
      weeklyHours := 10
      contentDistribution := ⟨40, 30, 15, 15⟩ }
  , { name := "Building"
      startWeek := orIfZero phase1End 1 + 1
      endWeek := orIfZero phase2End 3
      focus := "Skill development"
      objectives :=
        [ "Intermediate math topics", "Advanced grammar",
          "Evidence-based reading", "Strategy application"]
      weeklyHours := 12
      contentDistribution := ⟨30, 40, 15, 15⟩ }
  , { name := "Practice"
      startWeek := orIfZero phase2End 3 + 1
      endWeek := orIfZero phase3End (weeks - 1)
      focus := "Application and testing"
      objectives :=
        [ "Full practice tests", "Error analysis", "Pacing drills",
          "Weak area targeting"]
      weeklyHours := 12
      contentDistribution := ⟨20, 40, 30, 10⟩ }
  , { name := "Peak"
      startWeek := orIfZero phase3End (weeks - 1) + 1
      endWeek := weeks
      focus := "Final preparation"
      objectives :=
        [ "Light review", "Final practice test", "Confidence building",
          "Rest before test day"]
      weeklyHours := 8
      contentDistribution := ⟨10, 30, 40, 20⟩ } ]

/-- `generateStandardPhases` from `planGenerator.ts`. -/
def generateStandardPhases (weeks : ℕ) : List Phase :=
  [ { name := "Assessment"
      startWeek := 1
      endWeek := 1
      focus := "Comprehensive diagnostic and planning"
      objectives :=
        [ "Full proctored diagnostic test", "Detailed score analysis",
          "Learning style assessment", "Goal setting"]
      weeklyHours := 8
      contentDistribution := ⟨20, 20, 50, 10⟩ }
  , { name := "Foundation"
      startWeek := 2
      endWeek := ceilToNat ((weeks : ℚ) * 0.25)
      focus := "Core content mastery"
      objectives :=
        [ "Algebra fundamentals", "Grammar rules review",
          "Reading comprehension basics", "Question type identification"]
      weeklyHours := 10
      contentDistribution := ⟨40, 35, 10, 15⟩ }
  , { name := "Development"
      startWeek := ceilToNat ((weeks : ℚ) * 0.25) + 1
      endWeek := ceilToNat ((weeks : ℚ) * 0.55)
      focus := "Full content coverage"
      objectives :=
        [ "Advanced math topics", "Complex passages",
          "Rhetoric and synthesis", "Strategy development"]
      weeklyHours := 12
      contentDistribution := ⟨35, 40, 15, 10⟩ }
  , { name := "Strategy"
      startWeek := ceilToNat ((weeks : ℚ) * 0.55) + 1
      endWeek := ceilToNat ((weeks : ℚ) * 0.80)
      focus := "Strategy and application"
      objectives :=
        [ "Test-taking strategies", "Time management",
          "Elimination techniques", "Calculator/Desmos mastery"]
      weeklyHours := 12
      contentDistribution := ⟨25, 40, 25, 10⟩ }
  , { name := "Peak"
      startWeek := ceilToNat ((weeks : ℚ) * 0.80) + 1
      endWeek := weeks
      focus := "Testing and final prep"
      objectives :=
        [ "Multiple full practice tests", "Error pattern analysis",
          "Confidence building", "Pre-test routine"]
      weeklyHours := 10
      contentDistribution := ⟨10, 35, 45, 10⟩ } ]

/-- `generateExtendedPhases` from `planGenerator.ts`. -/
def generateExtendedPhases (weeks : ℕ) : List Phase :=
  [ { name := "Assessment & Foundation"
      startWeek := 1
      endWeek := ceilToNat ((weeks : ℚ) * 0.15)
      focus := "Comprehensive diagnosis and foundation building"
      objectives :=
        [ "Full diagnostic testing", "Learning style determination",
          "Core Math: Numbers, Algebra I", "Core R&W: Grammar, Basic Reading"]
      weeklyHours := 8
      contentDistribution := ⟨45, 30, 15, 10⟩ }
  , { name := "Core Skill Building"
      startWeek := ceilToNat ((weeks : ℚ) * 0.15) + 1
      endWeek := ceilToNat ((weeks : ℚ) * 0.35)
      focus := "Content breadth"
      objectives :=
        [ "Math: Algebra II, Geometry Basics",
          "R&W: Evidence, Inference, Structure",
          "Strategy: Basic elimination", "Regular practice tests"]
      weeklyHours := 10
      contentDistribution := ⟨35, 40, 15, 10⟩ }
  , { name := "Intermediate Mastery"
      startWeek := ceilToNat ((weeks : ℚ) * 0.35) + 1
      endWeek := ceilToNat ((weeks : ℚ) * 0.55)
      focus := "Content depth"
      objectives :=
        [ "Advanced Algebra, Geometry", "Rhetoric, Complex Passages",
          "Pacing, Bookmarking", "Full practice tests"]
      weeklyHours := 12
      contentDistribution := ⟨30, 40, 20, 10⟩ }
  , { name := "Advanced Content"
      startWeek := ceilToNat ((weeks : ℚ) * 0.55) + 1
      endWeek := ceilToNat ((weeks : ℚ) * 0.75)
      focus := "Complete coverage"
      objectives :=
        [ "Trigonometry, Advanced Functions", "Synthesis, Complex Grammar",
          "Desmos mastery", "Regular testing"]
      weeklyHours := 12
      contentDistribution := ⟨25, 40, 25, 10⟩ }
  , { name := "Intensive Application"
      startWeek := ceilToNat ((weeks : ℚ) * 0.75) + 1
      endWeek := ceilToNat ((weeks : ℚ) * 0.90)
      focus := "Application and practice"
      objectives :=
        [ "Mixed content review", "Heavy practice emphasis",
          "Error pattern remediation", "Multiple full tests"]
      weeklyHours := 14
      contentDistribution := ⟨15, 45, 30, 10⟩ }
  , { name := "Peak Performance"
      startWeek := ceilToNat ((weeks : ℚ) * 0.90) + 1
      endWeek := weeks
      focus := "Peak readiness"
      objectives :=
        [ "Strategic review", "High-frequency content focus",
          "Final practice tests", "Pre-test preparation"]
      weeklyHours := 10
      contentDistribution := ⟨10, 30, 45, 15⟩ } ]

/-- `generateLongTermPhases` from `planGenerator.ts`; `Math.floor(weeks / 4)`
is natural-number division. -/
def generateLongTermPhases (weeks : ℕ) : List Phase :=
  let quarterLength := weeks / 4
  [ { name := "Academic Foundation"
      startWeek := 1
      endWeek := quarterLength
      focus := "Fill academic gaps and build learning habits"
      objectives :=
        [ "Pre-algebra review if needed", "Basic grammar intensive",
          "Reading fluency development", "Study skills training"]
      weeklyHours := 6
      contentDistribution := ⟨50, 30, 10, 10⟩ }
  , { name := "Core SAT Content"
      startWeek := quarterLength + 1
      endWeek := quarterLength * 2
      focus := "Complete SAT curriculum"
      objectives :=
        [ "All math domains", "All R&W domains", "Strategy introduction",
          "Regular practice tests"]
      weeklyHours := 8
      contentDistribution := ⟨40, 35, 15, 10⟩ }
  , { name := "Advanced Mastery"
      startWeek := quarterLength * 2 + 1
      endWeek := quarterLength * 3
      focus := "Deep skill development"
      objectives :=
        [ "Advanced problems", "Strategy mastery", "Speed building",
          "Frequent testing"]
      weeklyHours := 12
      contentDistribution := ⟨25, 40, 25, 10⟩ }
  , { name := "Peak Performance"
      startWeek := quarterLength * 3 + 1
      endWeek := weeks
      focus := "Test-day readiness"
      objectives :=
        [ "Intensive practice", "Simulated testing", "Final content review",
          "Pre-test preparation"]
      weeklyHours := 14
      contentDistribution := ⟨10, 35, 45, 10⟩ } ]

/-- `generatePhases` from `planGenerator.ts` (the source's `default:` branch
is unreachable once the five cases are matched, so the match is total). -/
def generatePhases (planType : PlanType) (totalWeeks : ℕ)
    (scoreGap : ScoreGap) : List Phase :=
  match planType with
  | .cram => generateCramPhases totalWeeks
  | .short => generateShortPhases totalWeeks
  | .standard => generateStandardPhases totalWeeks
  | .extended => generateExtendedPhases totalWeeks
  | .long_term => generateLongTermPhases totalWeeks

/-- The `{focus, topics}` pair returned by `getTutoringFocusForPhase`. -/
structure TutoringFocus where
  focus : List String
  topics : List String
deriving DecidableEq, Repr

/-- `getTutoringFocusForPhase` from `planGenerator.ts` (the final-week check
comes first, then the week-1 check, then the phase-name keyword checks). -/
def getTutoringFocusForPhase (phaseName : String) (weekNumber totalWeeks : ℕ) :
    TutoringFocus :=
  if weekNumber = totalWeeks then
    { focus := ["Test-day preparation", "Confidence building"]
      topics :=
        [ "Review commonly missed problems", "Test-day strategies and timing",
          "Stress management techniques", "Final Q&A"] }
  else if weekNumber = 1 then
    { focus := ["Diagnostic review", "Goal setting"]
      topics :=
        [ "Review diagnostic results", "Identify priority skill gaps",
          "Set weekly goals", "Establish study routine"] }
  else if jsIncludes phaseName "Foundation" ||
      jsIncludes phaseName "Assessment" then
    { focus := ["Core concepts", "Foundation building"]
      topics :=
        [ "Algebra fundamentals", "Grammar rules mastery",
          "Reading comprehension strategies", "Question type identification"] }
  else if jsIncludes phaseName "Skill Building" ||
      jsIncludes phaseName "Development" then
    { focus := ["Skill development", "Strategy introduction"]
      topics :=
        [ "Advanced algebra techniques", "Geometry problem solving",
          "Evidence-based reading", "Rhetorical analysis"] }
  else if jsIncludes phaseName "Mastery" || jsIncludes phaseName "Advanced" then
    { focus := ["Advanced content", "Weak area targeting"]
      topics :=
        [ "Complex problem types", "Error pattern analysis",
          "Pacing strategies", "Desmos calculator usage"] }
  else if jsIncludes phaseName "Application" ||
      jsIncludes phaseName "Strategy" then
    { focus := ["Test strategies", "Practice test review"]
      topics :=
        [ "Practice test analysis", "Time management refinement",
          "Elimination techniques", "High-yield content review"] }
  else
    { focus := ["Final review", "Peak performance"]
      topics :=
        [ "High-frequency topics review", "Quick wins identification",
          "Mental preparation", "Test-day logistics"] }

/-- `generateTutoringSessions` from `planGenerator.ts`; the topic slice
`topics.slice((i-1)*2, i*2)` is `drop ((i-1)*2)` then `take 2`. -/
def generateTutoringSessions (sessionsPerWeek : ℕ) (phase : Phase)
    (weekNumber totalWeeks : ℕ) : List TutoringSession :=
  let phaseFocusAreas := getTutoringFocusForPhase phase.name weekNumber
    totalWeeks
  (List.range' 1 sessionsPerWeek).map fun i =>
    { sessionNumber := i
      duration := TUTORING_SESSION_DURATION
      focus := phaseFocusAreas.focus
      suggestedTopics := (phaseFocusAreas.topics.drop ((i - 1) * 2)).take 2 }

/-- `generateWeeklyFocus` from `planGenerator.ts`; the objective window is
`objectives[startIdx ..< min (startIdx + objectivesPerWeek) length]`. -/
def generateWeeklyFocus (phase : Phase) (weekInPhase totalPhaseWeeks : ℕ) :
    List String :=
  let beginFocus : List String :=
    if weekInPhase = 1 then ["Begin " ++ phase.name ++ " phase"] else []
  let objectivesPerWeek :=
    ceilToNat ((phase.objectives.length : ℚ) / totalPhaseWeeks)
  let startIdx := (weekInPhase - 1) * objectivesPerWeek
  let endIdx := min (startIdx + objectivesPerWeek) phase.objectives.length
  beginFocus ++ (phase.objectives.drop startIdx).take (endIdx - startIdx)

/-- `generateWeeklyActivities` from `planGenerator.ts`; the week-1 check on
the testing category precedes the final-week check. -/
def generateWeeklyActivities (phase : Phase)
    (weekInPhase absoluteWeek totalWeeks : ℕ) : List Activity :=
  let totalMinutes : ℚ := phase.weeklyHours * 60
  let learning := phase.contentDistribution.learning
  let practice := phase.contentDistribution.practice
  let testing := phase.contentDistribution.testing
  let review := phase.contentDistribution.review
  (if 0 < learning then
    [{ type := .lesson
       name := "Video Lessons & Content"
       duration := jsRound (totalMinutes * learning / 100)
       description := "Watch instructional videos and study content materials" }]
  else []) ++
  (if 0 < practice then
    [{ type := .practice
       name := "Practice Problems"
       duration := jsRound (totalMinutes * practice / 100)
       description := "Work through targeted practice problems" }]
  else []) ++
  (if 0 < testing then
    [ if absoluteWeek = 1 then
        { type := .diagnostic
          name := "Diagnostic Test"
          duration := jsRound (totalMinutes * testing / 100)
          description :=
            "Complete full diagnostic test to identify strengths and weaknesses" }
      else if absoluteWeek = totalWeeks then
        { type := .rest
          name := "Final Preparation"
          duration := jsRound (totalMinutes * testing / 100)
          description := "Light review and rest before test day" }
      else
        { type := .test
          name := "Practice Test / Section Tests"
          duration := jsRound (totalMinutes * testing / 100)
          description :=
            "Timed practice tests to build endurance and identify gaps" } ]
  else []) ++
  (if 0 < review then
    [{ type := .review
       name := "Review & Flashcards"
       duration := jsRound (totalMinutes * review / 100)
       description := "Review mistakes and use flashcards for retention" }]
  else [])

/-- `generateWeeklyPlans` from `planGenerator.ts`; the `if (!phase) continue`
of the source is the `none` case of `filterMap`. -/
def generateWeeklyPlans (phases : List Phase) (totalWeeks : ℕ)
    (tutoringSessionsPerWeek : ℕ) : List WeeklyPlan :=
  (List.range' 1 totalWeeks).filterMap fun week =>
    (phases.find? fun p =>
        decide (p.startWeek ≤ week) && decide (week ≤ p.endWeek)).map
      fun phase =>
        let weekInPhase := week - phase.startWeek + 1
        let totalPhaseWeeks := phase.endWeek - phase.startWeek + 1
        let activities := generateWeeklyActivities phase weekInPhase week
          totalWeeks
        let tutoringSessions := generateTutoringSessions
          tutoringSessionsPerWeek phase week totalWeeks
        let tutoringHours : ℚ :=
          (tutoringSessionsPerWeek * TUTORING_SESSION_DURATION : ℕ) / 60
        { weekNumber := week
          phase := phase.name
          focus := generateWeeklyFocus phase weekInPhase totalPhaseWeeks
          activities := activities
          tutoringSessions := tutoringSessions
          targetHours := phase.weeklyHours
          targetProblems := jsRound (phase.weeklyHours * 8)
          totalHoursWithTutoring := phase.weeklyHours + tutoringHours }

/-- `recommendIntensity` from `planGenerator.ts` (returns the tier name and
its `WEEKLY_HOURS` figure). -/
def recommendIntensity (weeks : ℕ) (scoreGap : ℤ)
    (tutoringSessionsPerWeek : ℕ) : String × ℚ :=
  let tutoringMultiplier := TUTORING_MULTIPLIERS tutoringSessionsPerWeek
  let requiredWeeklyGain : ℚ := (scoreGap : ℚ) / (weeks : ℚ)
  let effectiveGainNeeded := requiredWeeklyGain / tutoringMultiplier
  if effectiveGainNeeded ≤ 8 then ("light", WEEKLY_HOURS "light")
  else if effectiveGainNeeded ≤ 15 then ("moderate", WEEKLY_HOURS "moderate")
  else if effectiveGainNeeded ≤ 22 then ("intensive", WEEKLY_HOURS "intensive")
  else ("very_intensive", WEEKLY_HOURS "very_intensive")

/-- `generateStudyPlan` from `planGenerator.ts`, with the `calculateTimeline`
stage replaced by its resolved `effectiveWeeks` (the `Date` arithmetic is
outside the embedding) and the three `Date` output fields omitted. -/
def generateStudyPlan (effectiveWeeks : ℕ) (currentScore targetScore : ℤ)
    (tutoringSessionsPerWeek : ℕ) : StudyPlan :=
  let timeline : Timeline := ⟨effectiveWeeks⟩
  let scoreGap := calculateScoreGap currentScore targetScore
  let ri := recommendIntensity timeline.effectiveWeeks scoreGap.totalGap
    tutoringSessionsPerWeek
  let intensity := ri.1
  let weeklyHours := ri.2
  let feasibility := assessFeasibility timeline scoreGap intensity
    tutoringSessionsPerWeek
  let planType := selectPlanType timeline.effectiveWeeks
  let phases := generatePhases planType timeline.effectiveWeeks scoreGap
  let weeklyPlans := generateWeeklyPlans phases timeline.effectiveWeeks
    tutoringSessionsPerWeek
  let projectedScore : ℤ := min 1600
    (jsRound (((currentScore : ℚ) + feasibility.projectedImprovement) / 10) * 10)
  let tutoringMultiplier := TUTORING_MULTIPLIERS tutoringSessionsPerWeek
  let tutoringHoursPerWeek : ℚ :=
    (tutoringSessionsPerWeek * TUTORING_SESSION_DURATION : ℕ) / 60
  let totalTutoringSessions := tutoringSessionsPerWeek *
    timeline.effectiveWeeks
  { totalWeeks := timeline.effectiveWeeks
    startingScore := currentScore
    targetScore := targetScore
    projectedScore := projectedScore
    scoreGap := scoreGap
    planType := planType
    phases := phases
    weeklyPlans := weeklyPlans
    feasibility := feasibility
    studyIntensity := intensity
    weeklyHoursRecommended := weeklyHours
    tutoring :=
      { sessionsPerWeek := tutoringSessionsPerWeek
        totalSessions := totalTutoringSessions
        hoursPerWeek := tutoringHoursPerWeek
        multiplierApplied := tutoringMultiplier } }

/-- The four content-distribution percentages of a phase sum to 100. -/
def dist100B (p : Phase) : Bool :=
  p.contentDistribution.learning + p.contentDistribution.practice +
    p.contentDistribution.testing + p.contentDistribution.review == 100

/-- Every adjacent pair of phases satisfies
`next.startWeek = previous.endWeek + 1`. -/
def chainB : List Phase → Bool
  | [] => true
  | [_] => true
  | p :: q :: rest => (q.startWeek == p.endWeek + 1) && chainB (q :: rest)

/-- A phase list is contiguous and week-covering for `w` weeks: the first
phase starts at week 1, adjacent spans abut, and the last phase ends at
week `w`. -/
def coversB (phases : List Phase) (w : ℕ) : Bool :=
  (match phases.head? with
   | some p => p.startWeek == 1
   | none => false) &&
  (match phases.getLast? with
   | some p => p.endWeek == w
   | none => false) &&
  chainB phases

/-- Ladder order of the five plan archetypes
(cram < short < standard < extended < long_term). -/
def planTypeRank : PlanType → ℕ
  | .cram => 0
  | .short => 1
  | .standard => 2
  | .extended => 3
  | .long_term => 4

/-- The owning-phase predicate used by `generateWeeklyPlans`. -/
def ownsWeek (week : ℕ) (p : Phase) : Bool :=
  decide (p.startWeek ≤ week) && decide (week ≤ p.endWeek)

/-- `generatePhases` ignores its `scoreGap` argument in every branch. -/
theorem generatePhases_scoreGap_irrel (pt : PlanType) (w : ℕ)
    (sg sg2 : ScoreGap) : generatePhases pt w sg = generatePhases pt w sg2 := by
  cases pt <;> rfl

/-- Shared helper: for every effective week count `w ≥ 1`, the phase list of
the plan type selected for `w` is contiguous and week-covering, and every
phase's content distribution sums to 100. -/
theorem phases_cover (w : ℕ) (hw : 1 ≤ w) (sg : ScoreGap) :
    coversB (generatePhases (selectPlanType w) w sg) w = true ∧
    (generatePhases (selectPlanType w) w sg).all dist100B = true := by
  rw [generatePhases_scoreGap_irrel (selectPlanType w) w sg
    ⟨0, true, .small⟩]
  by_cases hw32 : w ≤ 32
  · interval_cases w <;> with_unfolding_all decide
  · have hsel : selectPlanType w = .long_term := by
      unfold selectPlanType
      split_ifs <;> first | rfl | omega
    rw [hsel]
    have hq : 1 ≤ w / 4 := by omega
    constructor
    · simp only [generatePhases, generateLongTermPhases, coversB, chainB,
        List.head?, List.getLast?_cons_cons, List.getLast?_singleton,
        Bool.and_eq_true, beq_iff_eq]
      simp
    · simp only [generatePhases, generateLongTermPhases, List.all_cons,
        List.all_nil, dist100B, Bool.and_eq_true]
      simp

/-- On a contiguous phase list whose first phase starts at or before `k` and
whose last phase ends at or after `k`, the owning-phase lookup succeeds
(inverted spans inside the chain cannot open a gap). -/
theorem find_ownsWeek_isSome :
    ∀ (ps : List Phase) (k : ℕ), chainB ps = true →
      (∀ p0, ps.head? = some p0 → p0.startWeek ≤ k) →
      (∀ pl, ps.getLast? = some pl → k ≤ pl.endWeek) →
      ps ≠ [] →
      (ps.find? (ownsWeek k)).isSome = true
  | [], _, _, _, _, hne => absurd rfl hne
  | [p], k, _, hhead, hlast, _ => by
    have h1 : p.startWeek ≤ k := hhead p rfl
    have h2 : k ≤ p.endWeek := hlast p rfl
    simp [List.find?, ownsWeek, h1, h2]
  | p :: q :: rest, k, hchain, hhead, hlast, _ => by
    have hpq : q.startWeek = p.endWeek + 1 ∧ chainB (q :: rest) = true := by
      have := hchain
      simp only [chainB, Bool.and_eq_true, beq_iff_eq] at this
      exact this
    by_cases hk : k ≤ p.endWeek
    · have h1 : p.startWeek ≤ k := hhead p rfl
      simp [List.find?, ownsWeek, h1, hk]
    · have hfind : (p :: q :: rest).find? (ownsWeek k) =
          (q :: rest).find? (ownsWeek k) := by
        simp [List.find?_cons, ownsWeek, hk]
      rw [hfind]
      refine find_ownsWeek_isSome (q :: rest) k hpq.2 ?_ ?_ (by simp)
      · intro p0 hp0
        simp only [List.head?] at hp0
        cases hp0
        omega
      · intro pl hpl
        refine hlast pl ?_
        rw [List.getLast?_cons_cons]
        exact hpl

/-- `filterMap` over a list where the function always succeeds and tags each
input with itself projects back to the original list. -/
theorem filterMap_proj_eq {α β : Type} (f : α → Option β) (proj : β → α) :
    ∀ ws : List α, (∀ k ∈ ws, ∃ y, f k = some y ∧ proj y = k) →
      (ws.filterMap f).map proj = ws
  | [], _ => rfl
  | k :: ws, h => by
    obtain ⟨y, hy, hproj⟩ := h k (by simp)
    simp only [List.filterMap_cons, hy, List.map_cons, hproj]
    rw [filterMap_proj_eq f proj ws (fun a ha => h a (by simp [ha]))]

/-- C8: for every week count `w ≥ 1`, `selectPlanType` is total with
boundaries exactly at 4/8/16/32 (`w ≤ 4 → cram`, `5 ≤ w ≤ 8 → short`,
`9 ≤ w ≤ 16 → standard`, `17 ≤ w ≤ 32 → extended`, `33 ≤ w → long_term`)
and monotonically non-decreasing in the order
cram < short < standard < extended < long_term. -/
theorem selectPlanType_boundaries (w : ℕ) (hw : 1 ≤ w) :
    (w ≤ 4 → selectPlanType w = PlanType.cram) ∧
    (5 ≤ w → w ≤ 8 → selectPlanType w = PlanType.short) ∧
    (9 ≤ w → w ≤ 16 → selectPlanType w = PlanType.standard) ∧
    (17 ≤ w → w ≤ 32 → selectPlanType w = PlanType.extended) ∧
    (33 ≤ w → selectPlanType w = PlanType.long_term) ∧
    ∀ w2 : ℕ, w ≤ w2 →
      planTypeRank (selectPlanType w) ≤ planTypeRank (selectPlanType w2) := by
  unfold selectPlanType
  refine ⟨?_, ?_, ?_, ?_, ?_, ?_⟩
  · intro h
    split_ifs <;> first | rfl | omega
  · intro h1 h2
    split_ifs <;> first | rfl | omega
  · intro h1 h2
    split_ifs <;> first | rfl | omega
  · intro h1 h2
    split_ifs <;> first | rfl | omega
  · intro h
    split_ifs <;> first | rfl | omega
  · intro w2 hle
    split_ifs <;> simp only [planTypeRank] <;> omega

/-- Witness for `selectPlanType_boundaries` at the boundary weeks 4, 5,
32 and 33. -/
theorem selectPlanType_boundaries_witness :
    selectPlanType 4 = PlanType.cram ∧ selectPlanType 5 = PlanType.short ∧
    selectPlanType 32 = PlanType.extended ∧
    selectPlanType 33 = PlanType.long_term ∧
    planTypeRank (selectPlanType 5) ≤ planTypeRank (selectPlanType 32) :=
  ⟨(selectPlanType_boundaries 4 (by decide)).1 (by decide),
   (selectPlanType_boundaries 5 (by decide)).2.1 (by decide) (by decide),
   (selectPlanType_boundaries 32 (by decide)).2.2.2.1 (by decide) (by decide),
   (selectPlanType_boundaries 33 (by decide)).2.2.2.2.1 (by decide),
   (selectPlanType_boundaries 5 (by decide)).2.2.2.2.2 32 (by decide)⟩

/-- C1 counterexample: on the reference scenario (current 1080, target 1350,
tutoring 2x, effective weeks 19) the gap is 270 but the difficulty bucket the
code assigns is not "significant" (270 exceeds the ≤ 250 significant
boundary). -/
theorem scenario_19w_difficulty_counterexample :
    (generateStudyPlan 19 1080 1350 2).scoreGap.totalGap = 270 ∧
    (generateStudyPlan 19 1080 1350 2).scoreGap.difficulty ≠
      Difficulty.significant := by
  with_unfolding_all decide

set_option maxRecDepth 40000 in
/-- C1 (amended): on the reference scenario (current 1080, target 1350,
tutoring 2x, effective weeks 19) the plan has `totalGap = 270` with
difficulty "large", plan type extended, projected score 1410, and a feasible
assessment. -/
theorem scenario_19w_values :
    (generateStudyPlan 19 1080 1350 2).scoreGap.totalGap = 270 ∧
    (generateStudyPlan 19 1080 1350 2).scoreGap.difficulty =
      Difficulty.large ∧
    (generateStudyPlan 19 1080 1350 2).planType = PlanType.extended ∧
    (generateStudyPlan 19 1080 1350 2).projectedScore = 1410 ∧
    (generateStudyPlan 19 1080 1350 2).feasibility.isFeasible = true := by
  with_unfolding_all decide

set_option maxRecDepth 40000 in
/-- C2: at `effectiveWeeks = 1` the selected plan type is cram and the cram
template emits a second phase with `startWeek = 2 > endWeek = 1`: an
inverted span, violating the claimed invariant. -/
theorem cram_one_week_inverted_span :
    (generateStudyPlan 1 1080 1350 2).planType = PlanType.cram ∧
    (generateStudyPlan 1 1080 1350 2).phases.map
      (fun p => (p.startWeek, p.endWeek)) = [(1, 1), (2, 1)] ∧
    (generateStudyPlan 1 1080 1350 2).phases.any
      (fun p => decide (p.endWeek < p.startWeek)) = true := by
  with_unfolding_all decide

set_option maxRecDepth 40000 in
/-- C7: with current score 1200, target 1600, light projections (tutoring 1x,
one effective week) the plan is infeasible and the trailing adjust_target
recommendation proposes 1040 — computed from the hard-coded placeholder
current score 1000 — whereas the caller-supplied current score 1200 would
give `jsRound ((projected + 1200) / 10) * 10 = 1240`. -/
theorem adjust_target_placeholder_score :
    (generateStudyPlan 1 1200 1600 1).feasibility.isFeasible = false ∧
    ((generateStudyPlan 1 1200 1600 1).feasibility.recommendations.getLast?).map
      (fun r => (r.type, r.details)) =
      some (RecType.adjust_target, some (RecDetails.adjustTarget 1040)) ∧
    jsRound
      (((generateStudyPlan 1 1200 1600 1).feasibility.projectedImprovement +
        1200) / 10) * 10 = 1240 ∧
    (1040 : ℤ) ≠ 1240 := by
  with_unfolding_all decide

/-- Complement to the one-week inversion: for every `effectiveWeeks ≥ 2`
with the plan type selected for it, no phase span inverts. -/
theorem phase_spans_non_inverted_from_two_weeks (w : ℕ) (hw : 2 ≤ w)
    (sg : ScoreGap) :
    (generatePhases (selectPlanType w) w sg).all
      (fun p => decide (p.startWeek ≤ p.endWeek)) = true := by
  rw [generatePhases_scoreGap_irrel (selectPlanType w) w sg
    ⟨0, true, .small⟩]
  by_cases h32 : w ≤ 32
  · interval_cases w <;> with_unfolding_all decide
  · have hsel : selectPlanType w = .long_term := by
      unfold selectPlanType
      split_ifs <;> first | rfl | omega
    rw [hsel]
    simp only [generatePhases, generateLongTermPhases, List.all_cons,
      List.all_nil, Bool.and_eq_true, decide_eq_true_eq, and_true]
    omega

/-- C10: when the plan spans a single week (so week 1 is both first and last
week), the testing-category self-study activity is the first-week diagnostic
variant and never the last-week rest variant, while every tutoring session
of that week carries the last-week focus set with its four test-day topics
sliced two per session. -/
theorem single_week_first_last_rules (t : ℕ) (h1 : 1 ≤ t) (h4 : t ≤ 4)
    (sg : ScoreGap) :
    (generateWeeklyPlans (generatePhases (selectPlanType 1) 1 sg) 1 t).length
      = 1 ∧
    (generateWeeklyPlans (generatePhases (selectPlanType 1) 1 sg) 1 t).all
      (fun wp =>
        wp.activities.any (fun a =>
          a.type == ActivityType.diagnostic && a.name == "Diagnostic Test") &&
        wp.activities.all (fun a => !(a.type == ActivityType.rest)) &&
        (wp.tutoringSessions.length == t) &&
        wp.tutoringSessions.all (fun s =>
          s.focus == ["Test-day preparation", "Confidence building"] &&
          s.suggestedTopics ==
            (([ "Review commonly missed problems",
                "Test-day strategies and timing",
                "Stress management techniques",
                "Final Q&A"].drop ((s.sessionNumber - 1) * 2)).take 2)))
      = true := by
  have hphases : generateWeeklyPlans (generatePhases (selectPlanType 1) 1 sg)
      1 t = generateWeeklyPlans (generateCramPhases 1) 1 t := rfl
  rw [hphases]
  interval_cases t <;> with_unfolding_all decide

/-- Witness for `single_week_first_last_rules` at tutoring frequency 2. -/
theorem single_week_first_last_rules_witness :
    (generateWeeklyPlans
      (generatePhases (selectPlanType 1) 1 (calculateScoreGap 1080 1350)) 1
      2).length = 1 ∧
    (generateWeeklyPlans
      (generatePhases (selectPlanType 1) 1 (calculateScoreGap 1080 1350)) 1
      2).all
      (fun wp =>
        wp.activities.any (fun a =>
          a.type == ActivityType.diagnostic && a.name == "Diagnostic Test") &&
        wp.activities.all (fun a => !(a.type == ActivityType.rest)) &&
        (wp.tutoringSessions.length == 2) &&
        wp.tutoringSessions.all (fun s =>
          s.focus == ["Test-day preparation", "Confidence building"] &&
          s.suggestedTopics ==
            (([ "Review commonly missed problems",
                "Test-day strategies and timing",
                "Stress management techniques",
                "Final Q&A"].drop ((s.sessionNumber - 1) * 2)).take 2)))
      = true :=
  single_week_first_last_rules 2 (by decide) (by decide)
    (calculateScoreGap 1080 1350)

/-- C3: for every `effectiveWeeks ≥ 1` with the plan type selected for it,
the generated phase list is contiguous and week-covering (first phase starts
at week 1, each phase's `endWeek + 1` is the next phase's `startWeek`, the
last phase ends at `effectiveWeeks`) and every phase's four
content-distribution percentages sum to exactly 100. -/
theorem generatePhases_contiguous_covering (w : ℕ) (hw : 1 ≤ w)
    (sg : ScoreGap) :
    coversB (generatePhases (selectPlanType w) w sg) w = true ∧
    (generatePhases (selectPlanType w) w sg).all dist100B = true :=
  phases_cover w hw sg

/-- Witness for `generatePhases_contiguous_covering` at 19 effective weeks. -/
theorem generatePhases_contiguous_covering_witness :
    coversB
      (generatePhases (selectPlanType 19) 19 (calculateScoreGap 1080 1350))
      19 = true ∧
    (generatePhases (selectPlanType 19) 19
      (calculateScoreGap 1080 1350)).all dist100B = true :=
  generatePhases_contiguous_covering 19 (by decide)
    (calculateScoreGap 1080 1350)

/-- C4: for every `effectiveWeeks ≥ 1`, `generateWeeklyPlans` over the
phases of the selected plan type returns exactly one weekly plan per week,
numbered 1.. effectiveWeeks in order, never empty, and each plan carries the
name of a phase whose inclusive span contains its week. -/
theorem generateWeeklyPlans_one_per_week (w : ℕ) (hw : 1 ≤ w)
    (sg : ScoreGap) (t : ℕ) :
    (generateWeeklyPlans (generatePhases (selectPlanType w) w sg) w t).map
      (fun wp => wp.weekNumber) = List.range' 1 w ∧
    (generateWeeklyPlans (generatePhases (selectPlanType w) w sg) w t).length
      = w ∧
    generateWeeklyPlans (generatePhases (selectPlanType w) w sg) w t ≠ [] ∧
    ∀ wp ∈ generateWeeklyPlans (generatePhases (selectPlanType w) w sg) w t,
      ∃ p ∈ generatePhases (selectPlanType w) w sg,
        wp.phase = p.name ∧ p.startWeek ≤ wp.weekNumber ∧
        wp.weekNumber ≤ p.endWeek := by
  obtain ⟨hcov, -⟩ := phases_cover w hw sg
  simp only [coversB, Bool.and_eq_true] at hcov
  obtain ⟨⟨hhead, hlast⟩, hchain⟩ := hcov
  have hsome : ∀ k : ℕ, 1 ≤ k → k ≤ w →
      ((generatePhases (selectPlanType w) w sg).find?
        (ownsWeek k)).isSome = true := by
    intro k hk1 hkw
    refine find_ownsWeek_isSome _ k hchain ?_ ?_ ?_
    · intro p0 hp0
      rw [hp0] at hhead
      simp only [beq_iff_eq] at hhead
      omega
    · intro pl hpl
      rw [hpl] at hlast
      simp only [beq_iff_eq] at hlast
      omega
    · intro hnil
      rw [hnil] at hhead
      simp at hhead
  have hmap : (generateWeeklyPlans (generatePhases (selectPlanType w) w sg)
      w t).map (fun wp => wp.weekNumber) = List.range' 1 w := by
    unfold generateWeeklyPlans
    refine filterMap_proj_eq _ _ _ ?_
    intro k hk
    have hk2 : 1 ≤ k ∧ k < 1 + w := by
      have := List.mem_range'.mp hk
      omega
    have := hsome k hk2.1 (by omega)
    rw [Option.isSome_iff_exists] at this
    obtain ⟨phase, hphase⟩ := this
    rw [show (fun p : Phase => decide (p.startWeek ≤ k) &&
      decide (k ≤ p.endWeek)) = ownsWeek k from rfl, hphase]
    exact ⟨_, rfl, rfl⟩
  have hlen : (generateWeeklyPlans (generatePhases (selectPlanType w) w sg)
      w t).length = w := by
    have := congrArg List.length hmap
    simpa using this
  refine ⟨hmap, hlen, ?_, ?_⟩
  · intro hnil
    rw [hnil] at hlen
    simp at hlen
    omega
  · intro wp hwp
    unfold generateWeeklyPlans at hwp
    rw [List.mem_filterMap] at hwp
    obtain ⟨k, hkmem, hfk⟩ := hwp
    rw [show (fun p : Phase => decide (p.startWeek ≤ k) &&
      decide (k ≤ p.endWeek)) = ownsWeek k from rfl] at hfk
    rw [Option.map_eq_some'] at hfk
    obtain ⟨phase, hfind, hwpeq⟩ := hfk
    have hmem := List.mem_of_find?_eq_some hfind
    have hpred := List.find?_some hfind
    simp only [ownsWeek, Bool.and_eq_true, decide_eq_true_eq] at hpred
    refine ⟨phase, hmem, ?_, ?_, ?_⟩
    · rw [← hwpeq]
    · rw [← hwpeq]
      exact hpred.1
    · rw [← hwpeq]
      exact hpred.2

/-- Witness for `generateWeeklyPlans_one_per_week` at a single effective
week with tutoring 2x. -/
theorem generateWeeklyPlans_one_per_week_witness :
    (generateWeeklyPlans
      (generatePhases (selectPlanType 1) 1 (calculateScoreGap 1080 1350)) 1
      2).map (fun wp => wp.weekNumber) = List.range' 1 1 ∧
    (generateWeeklyPlans
      (generatePhases (selectPlanType 1) 1 (calculateScoreGap 1080 1350)) 1
      2).length = 1 ∧
    generateWeeklyPlans
      (generatePhases (selectPlanType 1) 1 (calculateScoreGap 1080 1350)) 1 2
      ≠ [] ∧
    ∀ wp ∈ generateWeeklyPlans
      (generatePhases (selectPlanType 1) 1 (calculateScoreGap 1080 1350)) 1 2,
      ∃ p ∈ generatePhases (selectPlanType 1) 1 (calculateScoreGap 1080 1350),
        wp.phase = p.name ∧ p.startWeek ≤ wp.weekNumber ∧
        wp.weekNumber ≤ p.endWeek :=
  generateWeeklyPlans_one_per_week 1 (by decide)
    (calculateScoreGap 1080 1350) 2

/-- `jsRound` maps a rational lying between two integers to an integer in
the same bounds. -/
theorem jsRound_bounds {a b : ℤ} {q : ℚ} (h1 : (a : ℚ) ≤ q)
    (h2 : q ≤ (b : ℚ)) : a ≤ jsRound q ∧ jsRound q ≤ b := by
  unfold jsRound
  constructor
  · refine Int.le_floor.mpr ?_
    push_cast
    linarith
  · have hfl : (⌊q + 1 / 2⌋ : ℚ) ≤ q + 1 / 2 := Int.floor_le _
    have hlt : ⌊q + 1 / 2⌋ < b + 1 := by
      refine Int.floor_lt.mpr ?_
      push_cast
      linarith
    omega

/-- C5: for every valid intensity tier, tutoring frequency 1–4, effective
weeks ≥ 1 and gap ≥ 0, the projected improvement is
`min (weeks × baseRate × multiplier) (baseCap × multiplier)`, feasibility
holds exactly when the projection reaches the gap, and the rate/cap/
multiplier tables are 8/15/22/30, 150/250/350/450 and
1.20/1.30/1.35/1.40. -/
theorem assessFeasibility_projection (tl : Timeline) (sg : ScoreGap)
    (intensity : String) (t : ℕ) (hin : intensity ∈ intensityLevels)
    (ht1 : 1 ≤ t) (ht4 : t ≤ 4) (hw : 1 ≤ tl.effectiveWeeks)
    (hg : 0 ≤ sg.totalGap) :
    (assessFeasibility tl sg intensity t).projectedImprovement =
      min ((tl.effectiveWeeks : ℚ) *
          (WEEKLY_IMPROVEMENT_RATES intensity * TUTORING_MULTIPLIERS t))
        (MAX_IMPROVEMENTS intensity * TUTORING_MULTIPLIERS t) ∧
    ((assessFeasibility tl sg intensity t).isFeasible = true ↔
      (sg.totalGap : ℚ) ≤
        (assessFeasibility tl sg intensity t).projectedImprovement) ∧
    (WEEKLY_IMPROVEMENT_RATES "light" = 8 ∧
      WEEKLY_IMPROVEMENT_RATES "moderate" = 15 ∧
      WEEKLY_IMPROVEMENT_RATES "intensive" = 22 ∧
      WEEKLY_IMPROVEMENT_RATES "very_intensive" = 30) ∧
    (MAX_IMPROVEMENTS "light" = 150 ∧ MAX_IMPROVEMENTS "moderate" = 250 ∧
      MAX_IMPROVEMENTS "intensive" = 350 ∧
      MAX_IMPROVEMENTS "very_intensive" = 450) ∧
    (TUTORING_MULTIPLIERS 1 = 1.20 ∧ TUTORING_MULTIPLIERS 2 = 1.30 ∧
      TUTORING_MULTIPLIERS 3 = 1.35 ∧ TUTORING_MULTIPLIERS 4 = 1.40) := by
  refine ⟨?_, ?_, ⟨rfl, rfl, rfl, rfl⟩, ⟨rfl, rfl, rfl, rfl⟩,
    ⟨rfl, rfl, rfl, rfl⟩⟩
  · simp only [assessFeasibility]
    split <;> rfl
  · simp only [assessFeasibility]
    by_cases h : (sg.totalGap : ℚ) ≤
        min ((tl.effectiveWeeks : ℚ) *
          (WEEKLY_IMPROVEMENT_RATES intensity * TUTORING_MULTIPLIERS t))
        (MAX_IMPROVEMENTS intensity * TUTORING_MULTIPLIERS t)
    · simp only [if_pos h]
      simpa using h
    · simp only [if_neg h]
      simpa using h

/-- Witness for `assessFeasibility_projection`: moderate intensity, 2x
tutoring, 19 effective weeks, gap 270. -/
theorem assessFeasibility_projection_witness :
    (assessFeasibility ⟨19⟩ (calculateScoreGap 1080 1350) "moderate"
      2).projectedImprovement =
      min (((19 : ℕ) : ℚ) *
          (WEEKLY_IMPROVEMENT_RATES "moderate" * TUTORING_MULTIPLIERS 2))
        (MAX_IMPROVEMENTS "moderate" * TUTORING_MULTIPLIERS 2) ∧
    ((assessFeasibility ⟨19⟩ (calculateScoreGap 1080 1350) "moderate"
      2).isFeasible = true ↔
      ((calculateScoreGap 1080 1350).totalGap : ℚ) ≤
        (assessFeasibility ⟨19⟩ (calculateScoreGap 1080 1350) "moderate"
          2).projectedImprovement) ∧
    (WEEKLY_IMPROVEMENT_RATES "light" = 8 ∧
      WEEKLY_IMPROVEMENT_RATES "moderate" = 15 ∧
      WEEKLY_IMPROVEMENT_RATES "intensive" = 22 ∧
      WEEKLY_IMPROVEMENT_RATES "very_intensive" = 30) ∧
    (MAX_IMPROVEMENTS "light" = 150 ∧ MAX_IMPROVEMENTS "moderate" = 250 ∧
      MAX_IMPROVEMENTS "intensive" = 350 ∧
      MAX_IMPROVEMENTS "very_intensive" = 450) ∧
    (TUTORING_MULTIPLIERS 1 = 1.20 ∧ TUTORING_MULTIPLIERS 2 = 1.30 ∧
      TUTORING_MULTIPLIERS 3 = 1.35 ∧ TUTORING_MULTIPLIERS 4 = 1.40) :=
  assessFeasibility_projection ⟨19⟩ (calculateScoreGap 1080 1350) "moderate"
    2 (by decide) (by decide) (by decide) (by decide) (by decide)

/-- C9: for every valid input the confidence is an integer in [0, 100]; when
feasible it is `jsRound (min 95 (60 + buffer/gap × 35))` with
`buffer = projected − gap` (fixed at 95 when the gap is 0), and when
infeasible it is `jsRound (max 20 (60 − shortfall/10))`. -/
theorem assessFeasibility_confidence (tl : Timeline) (sg : ScoreGap)
    (intensity : String) (t : ℕ) (hin : intensity ∈ intensityLevels)
    (ht1 : 1 ≤ t) (ht4 : t ≤ 4) (hw : 1 ≤ tl.effectiveWeeks)
    (hg : 0 ≤ sg.totalGap) :
    (0 ≤ (assessFeasibility tl sg intensity t).confidence ∧
      (assessFeasibility tl sg intensity t).confidence ≤ 100) ∧
    ((assessFeasibility tl sg intensity t).isFeasible = true →
      (assessFeasibility tl sg intensity t).confidence =
        (if 0 < (sg.totalGap : ℚ) then
          jsRound (min 95 (60 +
            ((assessFeasibility tl sg intensity t).projectedImprovement -
              (sg.totalGap : ℚ)) / (sg.totalGap : ℚ) * 35))
        else 95)) ∧
    ((assessFeasibility tl sg intensity t).isFeasible = false →
      (assessFeasibility tl sg intensity t).confidence =
        jsRound (max 20 (60 - ((sg.totalGap : ℚ) -
          (assessFeasibility tl sg intensity t).projectedImprovement)
            / 10))) := by
  simp only [assessFeasibility]
  by_cases h : (sg.totalGap : ℚ) ≤
      min ((tl.effectiveWeeks : ℚ) *
        (WEEKLY_IMPROVEMENT_RATES intensity * TUTORING_MULTIPLIERS t))
      (MAX_IMPROVEMENTS intensity * TUTORING_MULTIPLIERS t)
  · simp only [if_pos h]
    refine ⟨?_, ?_, ?_⟩
    · by_cases hgap : 0 < (sg.totalGap : ℚ)
      · have hbuf : 0 ≤ (min ((tl.effectiveWeeks : ℚ) *
            (WEEKLY_IMPROVEMENT_RATES intensity * TUTORING_MULTIPLIERS t))
            (MAX_IMPROVEMENTS intensity * TUTORING_MULTIPLIERS t) -
            (sg.totalGap : ℚ)) / (sg.totalGap : ℚ) * 35 := by
          have : (0 : ℚ) ≤ (min ((tl.effectiveWeeks : ℚ) *
              (WEEKLY_IMPROVEMENT_RATES intensity * TUTORING_MULTIPLIERS t))
              (MAX_IMPROVEMENTS intensity * TUTORING_MULTIPLIERS t) -
              (sg.totalGap : ℚ)) / (sg.totalGap : ℚ) :=
            div_nonneg (by linarith) (le_of_lt hgap)
          linarith
        have hlow : (60 : ℚ) ≤ if 0 < (sg.totalGap : ℚ) then
            min 95 (60 + (min ((tl.effectiveWeeks : ℚ) *
              (WEEKLY_IMPROVEMENT_RATES intensity * TUTORING_MULTIPLIERS t))
              (MAX_IMPROVEMENTS intensity * TUTORING_MULTIPLIERS t) -
              (sg.totalGap : ℚ)) / (sg.totalGap : ℚ) * 35) else 95 := by
          rw [if_pos hgap]
          exact le_min (by norm_num) (by linarith)
        have hhigh : (if 0 < (sg.totalGap : ℚ) then
            min 95 (60 + (min ((tl.effectiveWeeks : ℚ) *
              (WEEKLY_IMPROVEMENT_RATES intensity * TUTORING_MULTIPLIERS t))
              (MAX_IMPROVEMENTS intensity * TUTORING_MULTIPLIERS t) -
              (sg.totalGap : ℚ)) / (sg.totalGap : ℚ) * 35) else 95) ≤
            (95 : ℚ) := by
          rw [if_pos hgap]
          exact min_le_left _ _
        have := jsRound_bounds (a := 60) (b := 95) (by push_cast; linarith)
          (by push_cast; linarith)
        exact ⟨by omega, by omega⟩
      · have hlow : (95 : ℚ) ≤ if 0 < (sg.totalGap : ℚ) then
            min 95 (60 + (min ((tl.effectiveWeeks : ℚ) *
              (WEEKLY_IMPROVEMENT_RATES intensity * TUTORING_MULTIPLIERS t))
              (MAX_IMPROVEMENTS intensity * TUTORING_MULTIPLIERS t) -
              (sg.totalGap : ℚ)) / (sg.totalGap : ℚ) * 35) else 95 := by
          rw [if_neg hgap]
        have hhigh : (if 0 < (sg.totalGap : ℚ) then
            min 95 (60 + (min ((tl.effectiveWeeks : ℚ) *
              (WEEKLY_IMPROVEMENT_RATES intensity * TUTORING_MULTIPLIERS t))
              (MAX_IMPROVEMENTS intensity * TUTORING_MULTIPLIERS t) -
              (sg.totalGap : ℚ)) / (sg.totalGap : ℚ) * 35) else 95) ≤
            (95 : ℚ) := by
          rw [if_neg hgap]
        have := jsRound_bounds (a := 95) (b := 95) (by push_cast; linarith)
          (by push_cast; linarith)
        exact ⟨by omega, by omega⟩
    · intro
      by_cases hgap : 0 < (sg.totalGap : ℚ)
      · rw [if_pos hgap, if_pos hgap]
      · rw [if_neg hgap, if_neg hgap]
        have : jsRound 95 = 95 := by
          with_unfolding_all decide
        simpa using this
    · intro hfalse
      simp at hfalse
  · simp only [if_neg h]
    have hsf : 0 < (sg.totalGap : ℚ) -
        min ((tl.effectiveWeeks : ℚ) *
          (WEEKLY_IMPROVEMENT_RATES intensity * TUTORING_MULTIPLIERS t))
        (MAX_IMPROVEMENTS intensity * TUTORING_MULTIPLIERS t) := by
      push_neg at h
      linarith
    refine ⟨?_, ?_, ?_⟩
    · have hlow : (20 : ℚ) ≤ max 20 (60 - ((sg.totalGap : ℚ) -
          min ((tl.effectiveWeeks : ℚ) *
            (WEEKLY_IMPROVEMENT_RATES intensity * TUTORING_MULTIPLIERS t))
          (MAX_IMPROVEMENTS intensity * TUTORING_MULTIPLIERS t)) / 10) :=
        le_max_left _ _
      have hhigh : max 20 (60 - ((sg.totalGap : ℚ) -
          min ((tl.effectiveWeeks : ℚ) *
            (WEEKLY_IMPROVEMENT_RATES intensity * TUTORING_MULTIPLIERS t))
          (MAX_IMPROVEMENTS intensity * TUTORING_MULTIPLIERS t)) / 10) ≤
          (60 : ℚ) := by
        refine max_le (by norm_num) ?_
        have : (0 : ℚ) < ((sg.totalGap : ℚ) -
            min ((tl.effectiveWeeks : ℚ) *
              (WEEKLY_IMPROVEMENT_RATES intensity * TUTORING_MULTIPLIERS t))
            (MAX_IMPROVEMENTS intensity * TUTORING_MULTIPLIERS t)) / 10 := by
          positivity
        linarith
      have := jsRound_bounds (a := 20) (b := 60) (by push_cast; linarith)
        (by push_cast; linarith)
      exact ⟨by omega, by omega⟩
    · intro htrue
      simp at htrue
    · intro
      first | rfl | trivial

/-- Witness for `assessFeasibility_confidence`: moderate intensity, 2x
tutoring, 19 effective weeks, gap 270. -/
theorem assessFeasibility_confidence_witness :
    (0 ≤ (assessFeasibility ⟨19⟩ (calculateScoreGap 1080 1350) "moderate"
        2).confidence ∧
      (assessFeasibility ⟨19⟩ (calculateScoreGap 1080 1350) "moderate"
        2).confidence ≤ 100) ∧
    ((assessFeasibility ⟨19⟩ (calculateScoreGap 1080 1350) "moderate"
        2).isFeasible = true →
      (assessFeasibility ⟨19⟩ (calculateScoreGap 1080 1350) "moderate"
        2).confidence =
        (if 0 < (((calculateScoreGap 1080 1350).totalGap : ℚ)) then
          jsRound (min 95 (60 +
            ((assessFeasibility ⟨19⟩ (calculateScoreGap 1080 1350)
              "moderate" 2).projectedImprovement -
              ((calculateScoreGap 1080 1350).totalGap : ℚ)) /
              ((calculateScoreGap 1080 1350).totalGap : ℚ) * 35))
        else 95)) ∧
    ((assessFeasibility ⟨19⟩ (calculateScoreGap 1080 1350) "moderate"
        2).isFeasible = false →
      (assessFeasibility ⟨19⟩ (calculateScoreGap 1080 1350) "moderate"
        2).confidence =
        jsRound (max 20 (60 - (((calculateScoreGap 1080 1350).totalGap : ℚ) -
          (assessFeasibility ⟨19⟩ (calculateScoreGap 1080 1350) "moderate"
            2).projectedImprovement) / 10))) :=
  assessFeasibility_confidence ⟨19⟩ (calculateScoreGap 1080 1350) "moderate"
    2 (by decide) (by decide) (by decide) (by decide) (by decide)

/-- C6: recommendations are empty exactly when feasible; when infeasible the
list is an optional increase_intensity (high) then an optional add_tutoring
(high, only with tutoring < 4), then extend_timeline (medium, with
`additionalWeeks = ceil (shortfall / weeklyRate)`), then adjust_target
(low), in that order. -/
theorem assessFeasibility_recommendations (tl : Timeline) (sg : ScoreGap)
    (intensity : String) (t : ℕ) (hin : intensity ∈ intensityLevels)
    (ht1 : 1 ≤ t) (ht4 : t ≤ 4) (hw : 1 ≤ tl.effectiveWeeks)
    (hg : 0 ≤ sg.totalGap) :
    ((assessFeasibility tl sg intensity t).recommendations = [] ↔
      (assessFeasibility tl sg intensity t).isFeasible = true) ∧
    ((assessFeasibility tl sg intensity t).isFeasible = false →
      ∃ incs tuts : List Recommendation, ∃ ext adj : Recommendation,
        (assessFeasibility tl sg intensity t).recommendations =
          incs ++ tuts ++ [ext, adj] ∧
        ext.type = RecType.extend_timeline ∧
        ext.priority = Priority.medium ∧
        ext.details = some (RecDetails.extendTimeline
          ⌈((sg.totalGap : ℚ) -
            (assessFeasibility tl sg intensity t).projectedImprovement) /
            (WEEKLY_IMPROVEMENT_RATES intensity * TUTORING_MULTIPLIERS t)⌉) ∧
        adj.type = RecType.adjust_target ∧
        adj.priority = Priority.low ∧
        (incs = [] ∨ ∃ r, incs = [r] ∧
          r.type = RecType.increase_intensity ∧
          r.priority = Priority.high) ∧
        (tuts = [] ∨ (t < 4 ∧ ∃ r, tuts = [r] ∧
          r.type = RecType.add_tutoring ∧
          r.priority = Priority.high))) := by
  simp only [assessFeasibility]
  by_cases h : (sg.totalGap : ℚ) ≤
      min ((tl.effectiveWeeks : ℚ) *
        (WEEKLY_IMPROVEMENT_RATES intensity * TUTORING_MULTIPLIERS t))
      (MAX_IMPROVEMENTS intensity * TUTORING_MULTIPLIERS t)
  · simp only [if_pos h]
    exact ⟨by simp, by simp⟩
  · simp only [if_neg h]
    constructor
    · simp
    · intro
      refine ⟨_, _, _, _, rfl, rfl, rfl, rfl, rfl, rfl, ?_, ?_⟩
      · cases hfind : (intensityLevels.drop
            ((jsIndexOf intensityLevels intensity + 1).toNat)).find?
            (fun newIntensity =>
              decide ((sg.totalGap : ℚ) ≤ min ((tl.effectiveWeeks : ℚ) *
                (WEEKLY_IMPROVEMENT_RATES newIntensity *
                  TUTORING_MULTIPLIERS t))
                (MAX_IMPROVEMENTS newIntensity *
                  TUTORING_MULTIPLIERS t))) with
        | none =>
          exact Or.inl rfl
        | some newIntensity =>
          exact Or.inr ⟨_, rfl, rfl, rfl⟩
      · by_cases ht : t < 4
        · rw [if_pos ht]
          by_cases hmore : (sg.totalGap : ℚ) ≤
              min ((tl.effectiveWeeks : ℚ) * WEEKLY_IMPROVEMENT_RATES
                intensity * TUTORING_MULTIPLIERS (min 4 (t + 1)))
              (MAX_IMPROVEMENTS intensity *
                TUTORING_MULTIPLIERS (min 4 (t + 1)))
          · rw [if_pos hmore]
            exact Or.inr ⟨ht, _, rfl, rfl, rfl⟩
          · rw [if_neg hmore]
            exact Or.inl rfl
        · rw [if_neg ht]
          exact Or.inl rfl

/-- Witness for `assessFeasibility_recommendations`: light intensity, 1x
tutoring, 1 effective week, gap 400 (infeasible input). -/
theorem assessFeasibility_recommendations_witness :
    ((assessFeasibility ⟨1⟩ (calculateScoreGap 1200 1600) "light"
        1).recommendations = [] ↔
      (assessFeasibility ⟨1⟩ (calculateScoreGap 1200 1600) "light"
        1).isFeasible = true) ∧
    ((assessFeasibility ⟨1⟩ (calculateScoreGap 1200 1600) "light"
        1).isFeasible = false →
      ∃ incs tuts : List Recommendation, ∃ ext adj : Recommendation,
        (assessFeasibility ⟨1⟩ (calculateScoreGap 1200 1600) "light"
          1).recommendations = incs ++ tuts ++ [ext, adj] ∧
        ext.type = RecType.extend_timeline ∧
        ext.priority = Priority.medium ∧
        ext.details = some (RecDetails.extendTimeline
          ⌈(((calculateScoreGap 1200 1600).totalGap : ℚ) -
            (assessFeasibility ⟨1⟩ (calculateScoreGap 1200 1600) "light"
              1).projectedImprovement) /
            (WEEKLY_IMPROVEMENT_RATES "light" * TUTORING_MULTIPLIERS 1)⌉) ∧
        adj.type = RecType.adjust_target ∧
        adj.priority = Priority.low ∧
        (incs = [] ∨ ∃ r, incs = [r] ∧
          r.type = RecType.increase_intensity ∧
          r.priority = Priority.high) ∧
        (tuts = [] ∨ (1 < 4 ∧ ∃ r, tuts = [r] ∧
          r.type = RecType.add_tutoring ∧
          r.priority = Priority.high))) :=
  assessFeasibility_recommendations ⟨1⟩ (calculateScoreGap 1200 1600)
    "light" 1 (by decide) (by decide) (by decide) (by decide) (by decide)

end SatPlan
